import Mathlib

/-!
Verification of the PennApps prompt-optimizer server.

The definitions below are a shallow embedding of the JavaScript server
(`server/db.js` and `server/index.js`) together with the client-side token
estimator.  JavaScript numbers are modelled as rationals (`ℚ`), the SQLite
tables as Lean lists, and each HTTP handler as a pure function from a request
and a store state to a response and a new store state.
-/

namespace PennApps

/-! ## Token estimator

`estimateTokens` embeds the JS function

```js
const estimateTokens = (text) => {
  if (!text) return 0;
  const trimmed = text.replace(/\s+/g, ' ').trim();
  if (trimmed.length === 0) return 0;
  return Math.max(1, Math.ceil(trimmed.length / 4));
};
```
-/

/-- Characters matched by the JS regex class `\s` (ECMAScript WhiteSpace and
LineTerminator code points). -/
def isJsWS (c : Char) : Bool :=
  c.toNat = 0x20 || c.toNat = 0x9 || c.toNat = 0xa || c.toNat = 0xb ||
  c.toNat = 0xc || c.toNat = 0xd || c.toNat = 0xa0 || c.toNat = 0x1680 ||
  (0x2000 ≤ c.toNat && c.toNat ≤ 0x200a) ||
  c.toNat = 0x2028 || c.toNat = 0x2029 || c.toNat = 0x202f ||
  c.toNat = 0x205f || c.toNat = 0x3000 || c.toNat = 0xfeff

/-- `text.replace(/\s+/g, ' ')`: every maximal run of whitespace becomes one
space.  The boolean argument records whether the previous character was part
of a whitespace run. -/
def collapseAux : Bool → List Char → List Char
  | _, [] => []
  | prevWS, c :: cs =>
    if isJsWS c then
      if prevWS then collapseAux true cs
      else ' ' :: collapseAux true cs
    else c :: collapseAux false cs

def collapseWS (l : List Char) : List Char := collapseAux false l

/-- `String.prototype.trim`: drop leading and trailing whitespace. -/
def trimWS (l : List Char) : List Char :=
  ((l.dropWhile isJsWS).reverse.dropWhile isJsWS).reverse

/-- The token estimator: 1 token ≈ 4 characters of the
whitespace-normalized text.  `(n + 3) / 4` is `Math.ceil(n / 4)` on
natural numbers. -/
def estimateTokens (text : String) : Nat :=
  if text = "" then 0
  else
    let trimmed := trimWS (collapseWS text.data)
    if trimmed.length = 0 then 0
    else max 1 ((trimmed.length + 3) / 4)

/-! ## Data model

The two SQLite tables of `server/db.js`, modelled as lists.  Row ids are
assigned sequentially (`AUTOINCREMENT` with no deletes), so the next id is
`length + 1`.  JS numbers arriving in request bodies are modelled as `ℚ`:
the server stores client-supplied `tokens_before` / `tokens_after` verbatim,
so those columns may hold any number, not just non-negative integers. -/

structure User where
  id : Nat
  email : String
  password_hash : String
deriving DecidableEq, Repr

structure OptRecord where
  id : Nat
  user_id : Option Nat
  prompt : String
  optimized_prompt : String
  tokens_before : ℚ
  tokens_after : ℚ
  tokens_saved : ℚ
  co2_saved_kg : ℚ
deriving DecidableEq, Repr

structure Store where
  users : List User
  opts : List OptRecord
deriving DecidableEq, Repr

/-! ## Conversion constants -/

/-- `0.0003 / 1000` kWh per token. -/
def kwhPerToken : ℚ := 3 / 10000 / 1000

/-- `parseFloat(process.env.GRID_KGCO2_PER_KWH) || 0.45`.  The argument is
the parsed environment value: `none` when the variable is absent or not a
number (`parseFloat` yields `NaN`, which is falsy), `some q` when it parses
to the number `q`.  `0` is falsy in JS, so a configured `0` also falls back
to the default. -/
def gridIntensity (env : Option ℚ) : ℚ :=
  match env with
  | none => 45 / 100
  | some q => if q = 0 then 45 / 100 else q

/-! ## Session-token verification

`getUserFromToken` (server/index.js lines 66–76): a missing cookie returns
`null`; `jwt.verify` throwing (malformed, bad signature, expired) is caught
and returns `null`; a valid token looks the payload id up in the users table
and returns `row || null`.  The cookie state is abstracted to three cases:
absent, invalid (any way `jwt.verify` can throw), or valid with a payload
id. -/

inductive TokRes where
  | absent
  | invalid
  | valid (id : Nat)
deriving DecidableEq, Repr

def getUserFromToken (tok : TokRes) (users : List User) : Option User :=
  match tok with
  | .absent => none
  | .invalid => none
  | .valid i =>
    match users.find? (fun u => u.id == i) with
    | some row => some row
    | none => none

/-! ## POST /api/optimize (server/index.js lines 136–189)

Request fields are `Option`s: `tokens_before`/`tokens_after` are `some` only
when the body carries a JS number there (the `typeof x === 'number'` check),
`prompt`/`optimized_prompt` are `some` when a string is present.  `strTruthy`
is JS truthiness on an optional string: absent and `""` are falsy. -/

structure OptimizeReq where
  prompt : Option String
  optimized_prompt : Option String
  tokens_before : Option ℚ
  tokens_after : Option ℚ
deriving DecidableEq, Repr

def strTruthy : Option String → Bool
  | none => false
  | some s => s ≠ ""

inductive OptimizeResult where
  | badRequest
  | ok (id : Nat) (user_id : Option Nat)
      (tokens_before tokens_after tokens_saved kwh_saved co2_saved_kg : ℚ)
deriving DecidableEq, Repr

def OptimizeResult.status : OptimizeResult → Nat
  | .badRequest => 400
  | .ok .. => 200

/-- Lines 155–164: `tokens_saved = Math.max(0, tb - ta)`,
`kwh_saved = tokens_saved * kwh_per_token`,
`co2_saved_kg = kwh_saved * GRID_KGCO2_PER_KWH`. -/
def computeSavings (gi tb ta : ℚ) : ℚ × ℚ × ℚ :=
  let tokens_saved := max 0 (tb - ta)
  let kwh_saved := tokens_saved * kwhPerToken
  (tokens_saved, kwh_saved, kwh_saved * gi)

/-- Line 150: `const tb = typeof tokens_before === 'number' ? tokens_before
: estimateTokens(prompt)`. -/
def reqTb (req : OptimizeReq) : ℚ :=
  match req.tokens_before with
  | some n => n
  | none => (estimateTokens (req.prompt.getD "") : ℚ)

/-- Lines 151–153: `const ta = typeof tokens_after === 'number' ?
tokens_after : (optimized_prompt ? estimateTokens(optimized_prompt) :
Math.max(0, tb - Math.max(0, Math.floor(tb * 0.2))))`. -/
def reqTa (req : OptimizeReq) : ℚ :=
  match req.tokens_after with
  | some n => n
  | none =>
    if strTruthy req.optimized_prompt then
      (estimateTokens (req.optimized_prompt.getD "") : ℚ)
    else max 0 (reqTb req - max 0 ((Int.floor (reqTb req * (2 / 10)) : ℤ) : ℚ))

/-- The row inserted by lines 169–174 (`optimized_prompt || ''` stores the
empty string when the field is absent). -/
def newRecord (env : Option ℚ) (tok : TokRes) (req : OptimizeReq)
    (st : Store) : OptRecord :=
  ⟨st.opts.length + 1,
   (getUserFromToken tok st.users).map (fun u => u.id),
   req.prompt.getD "",
   req.optimized_prompt.getD "",
   reqTb req,
   reqTa req,
   (computeSavings (gridIntensity env) (reqTb req) (reqTa req)).1,
   (computeSavings (gridIntensity env) (reqTb req) (reqTa req)).2.2⟩

def optimizeHandler (env : Option ℚ) (tok : TokRes) (req : OptimizeReq)
    (st : Store) : OptimizeResult × Store :=
  if strTruthy req.prompt then
    let r := newRecord env tok req st
    (.ok r.id r.user_id r.tokens_before r.tokens_after r.tokens_saved
       (computeSavings (gridIntensity env) (reqTb req) (reqTa req)).2.1
       r.co2_saved_kg,
     ⟨st.users, st.opts ++ [r]⟩)
  else (.badRequest, st)

/-! ## Auth endpoints (server/index.js lines 80–127)

`bcrypt.hash` and `bcrypt.compare` are external capabilities, abstracted as
a hashing function and a verification predicate.  A response carries the
HTTP status, the JSON message (if any), the returned user (if any) and
whether a session cookie was set. -/

structure AuthResp where
  status : Nat
  message : Option String
  user : Option (Nat × String)
  setCookie : Bool
deriving DecidableEq, Repr

/-- POST /api/auth/signup. -/
def signupHandler (hash : String → String) (email password : Option String)
    (st : Store) : AuthResp × Store :=
  if strTruthy email && strTruthy password then
    let e := email.getD ""
    match st.users.find? (fun u => u.email == e) with
    | some _ => (⟨409, some "Email already in use", none, false⟩, st)
    | none =>
      let i := st.users.length + 1
      let u : User := ⟨i, e, hash (password.getD "")⟩
      (⟨200, none, some (i, e), true⟩, ⟨st.users ++ [u], st.opts⟩)
  else (⟨400, some "Email and password required", none, false⟩, st)

/-- POST /api/auth/login.  The login handler never writes, so it returns
only the response. -/
def loginHandler (verify : String → String → Bool)
    (email password : Option String) (st : Store) : AuthResp :=
  if strTruthy email && strTruthy password then
    match st.users.find? (fun u => u.email == email.getD "") with
    | none => ⟨401, some "Invalid credentials", none, false⟩
    | some row =>
      if verify (password.getD "") row.password_hash then
        ⟨200, none, some (row.id, row.email), true⟩
      else ⟨401, some "Invalid credentials", none, false⟩
  else ⟨400, some "Email and password required", none, false⟩

/-- GET /api/auth/me: always a 200, with `user: null` when token
verification fails. -/
def meHandler (tok : TokRes) (st : Store) : Nat × Option (Nat × String) :=
  match getUserFromToken tok st.users with
  | none => (200, none)
  | some u => (200, some (u.id, u.email))

/-! ## GET /api/stats (server/index.js lines 202–232) -/

structure StatsResp where
  users : Nat
  co2_saved_kg : ℚ
  co2_saved_g : ℚ
  prompts_optimized : Nat
  energy_saved_kwh : ℚ
  impact_score : ℚ
deriving DecidableEq, Repr

/-- `SELECT IFNULL(SUM(co2_saved_kg), 0) FROM optimizations`. -/
def sumCo2 (l : List OptRecord) : ℚ := (l.map (fun r => r.co2_saved_kg)).sum

/-- The stats handler only reads, so it returns the response and passes the
store through unchanged. -/
def statsHandler (env : Option ℚ) (st : Store) : StatsResp × Store :=
  let users := st.users.length
  let prompts := st.opts.length
  let co2 := sumCo2 st.opts
  let gi := gridIntensity env
  let energy := if gi > 0 then co2 / gi else 0
  let impact := co2 * 1000 + (prompts : ℚ) * (1 / 10) + (users : ℚ) * 1
  (⟨users, co2, co2 * 1000, prompts, energy, impact⟩, st)

/-! ## Claim C1: the token estimator -/

/-- Claim C1: the token estimator collapses whitespace runs, trims, returns 0
on an empty result and otherwise `max 1 (ceil (length / 4))`; it is total, and
in particular `estimate "" = 0`, `estimate "a" = 1`, and on a text of length
`4 * k` (with `k > 0`) left unchanged by whitespace normalization it returns
`k`. -/
theorem estimateTokens_spec :
    (∀ s : String,
      estimateTokens s =
        (if (trimWS (collapseWS s.data)).length = 0 then 0
         else max 1 (((trimWS (collapseWS s.data)).length + 3) / 4))) ∧
    estimateTokens "" = 0 ∧
    estimateTokens "a" = 1 ∧
    ∀ (s : String) (k : Nat), 0 < k →
      trimWS (collapseWS s.data) = s.data →
      s.data.length = 4 * k →
      estimateTokens s = k := by
  refine ⟨?_, by decide, by decide, ?_⟩
  · intro s
    by_cases hs : s = ""
    · subst hs; decide
    · simp [estimateTokens, hs]
  · intro s k hk hfix hlen
    have hs : s ≠ "" := by
      intro h
      subst h
      simp at hlen
      omega
    have h4 : (4 * k + 3) / 4 = k := by omega
    simp [estimateTokens, hs, hfix, hlen, h4, Nat.max_eq_right hk]
    omega

/-- Concrete instantiation of `estimateTokens_spec`: the 8-character
whitespace-free string `"abcdefgh"` estimates to 2 tokens. -/
theorem estimateTokens_spec_witness :
    0 < 2 ∧ trimWS (collapseWS "abcdefgh".data) = "abcdefgh".data ∧
    "abcdefgh".data.length = 4 * 2 ∧ estimateTokens "abcdefgh" = 2 :=
  ⟨by decide, by decide, by decide,
    estimateTokens_spec.2.2.2 "abcdefgh" 2 (by decide) (by decide) (by decide)⟩

/-! ## Claim C2: the savings computation -/

/-- Claim C2: for every pair of token counts, `tokens_saved =
max 0 (tokens_before - tokens_after)`, `kwh_saved = tokens_saved *
(0.0003 / 1000)`, `co2_saved_kg = kwh_saved * grid_intensity`; for any
non-negative grid intensity (the default is `0.45`) all three outputs are
non-negative, and when `tokens_after > tokens_before` both `tokens_saved`
and `co2_saved_kg` are exactly 0. -/
theorem computeSavings_spec (tb ta gi : ℚ) (hgi : 0 ≤ gi) :
    (computeSavings gi tb ta).1 = max 0 (tb - ta) ∧
    (computeSavings gi tb ta).2.1 = (computeSavings gi tb ta).1 * (3 / 10000 / 1000) ∧
    (computeSavings gi tb ta).2.2 = (computeSavings gi tb ta).2.1 * gi ∧
    0 ≤ (computeSavings gi tb ta).1 ∧
    0 ≤ (computeSavings gi tb ta).2.1 ∧
    0 ≤ (computeSavings gi tb ta).2.2 ∧
    (tb < ta → (computeSavings gi tb ta).1 = 0 ∧ (computeSavings gi tb ta).2.2 = 0) := by
  have hs : (0 : ℚ) ≤ max 0 (tb - ta) := le_max_left 0 (tb - ta)
  have hkwh : (0 : ℚ) ≤ kwhPerToken := by norm_num [kwhPerToken]
  refine ⟨rfl, rfl, rfl, hs, mul_nonneg hs hkwh, mul_nonneg (mul_nonneg hs hkwh) hgi, ?_⟩
  intro hlt
  have hz : max 0 (tb - ta) = 0 := max_eq_left (by linarith)
  constructor
  · exact hz
  · show max 0 (tb - ta) * kwhPerToken * gi = 0
    rw [hz, zero_mul, zero_mul]

/-- Concrete instantiation of `computeSavings_spec` at `tokens_before = 3`,
`tokens_after = 10` and the default grid intensity `0.45`. -/
theorem computeSavings_spec_witness :
    (0 : ℚ) ≤ 45 / 100 ∧
    ((computeSavings (45 / 100) 3 10).1 = max 0 (3 - 10) ∧
     (computeSavings (45 / 100) 3 10).2.1 =
       (computeSavings (45 / 100) 3 10).1 * (3 / 10000 / 1000) ∧
     (computeSavings (45 / 100) 3 10).2.2 =
       (computeSavings (45 / 100) 3 10).2.1 * (45 / 100) ∧
     0 ≤ (computeSavings (45 / 100) 3 10).1 ∧
     0 ≤ (computeSavings (45 / 100) 3 10).2.1 ∧
     0 ≤ (computeSavings (45 / 100) 3 10).2.2 ∧
     ((3 : ℚ) < 10 → (computeSavings (45 / 100) 3 10).1 = 0 ∧
       (computeSavings (45 / 100) 3 10).2.2 = 0)) :=
  ⟨by norm_num, computeSavings_spec 3 10 (45 / 100) (by norm_num)⟩

/-! ## Claim C4: the stats snapshot -/

/-- Claim C4: the stats snapshot counts all user rows, counts all
optimization rows, sums `co2_saved_kg` over all records (0 when there are
none), computes `energy_saved_kwh = co2_saved_kg / grid_intensity` behind the
positivity guard, computes `impact_score = co2 * 1000 + prompts * 0.1 +
users * 1`, leaves the store unchanged, and repeated reads with no writes in
between return equal values. -/
theorem statsHandler_spec (env : Option ℚ) (st : Store) :
    (statsHandler env st).1.users = st.users.length ∧
    (statsHandler env st).1.prompts_optimized = st.opts.length ∧
    (statsHandler env st).1.co2_saved_kg = sumCo2 st.opts ∧
    (st.opts = [] → (statsHandler env st).1.co2_saved_kg = 0) ∧
    (statsHandler env st).1.energy_saved_kwh =
      (if 0 < gridIntensity env then sumCo2 st.opts / gridIntensity env else 0) ∧
    (0 < gridIntensity env →
      (statsHandler env st).1.energy_saved_kwh = sumCo2 st.opts / gridIntensity env) ∧
    (statsHandler env st).1.impact_score =
      sumCo2 st.opts * 1000 + (st.opts.length : ℚ) * (1 / 10) +
        (st.users.length : ℚ) * 1 ∧
    (statsHandler env st).2 = st ∧
    (statsHandler env ((statsHandler env st).2)).1 = (statsHandler env st).1 := by
  refine ⟨rfl, rfl, rfl, ?_, rfl, ?_, rfl, rfl, rfl⟩
  · intro h
    show sumCo2 st.opts = 0
    rw [h]
    rfl
  · intro h
    show (if 0 < gridIntensity env then sumCo2 st.opts / gridIntensity env else 0) =
      sumCo2 st.opts / gridIntensity env
    rw [if_pos h]

/-- Concrete instantiation of `statsHandler_spec` on the empty store with the
default grid intensity. -/
theorem statsHandler_spec_witness :
    (Store.mk [] []).opts = [] ∧ 0 < gridIntensity none ∧
    (statsHandler none ⟨[], []⟩).1.co2_saved_kg = 0 ∧
    (statsHandler none ⟨[], []⟩).1.energy_saved_kwh =
      sumCo2 (Store.mk [] []).opts / gridIntensity none := by
  refine ⟨rfl, by norm_num [gridIntensity], ?_, ?_⟩
  · exact (statsHandler_spec none ⟨[], []⟩).2.2.2.1 rfl
  · exact (statsHandler_spec none ⟨[], []⟩).2.2.2.2.2.1 (by norm_num [gridIntensity])

/-! ## Claim C5: POST /api/optimize request handling -/

/-- Claim C5: a missing or empty prompt yields a 400 and writes nothing;
otherwise exactly one record is appended in a single insert and the response
carries its newly assigned id; `tokens_before` defaults to
`estimate prompt` when absent and `tokens_after` defaults to
`estimate optimized_prompt` when `tokens_after` is absent and a (non-empty,
i.e. JS-truthy) `optimized_prompt` is supplied; client-supplied numeric
fields are stored verbatim. -/
theorem optimizeHandler_endpoint_spec (env : Option ℚ) (tok : TokRes)
    (req : OptimizeReq) (st : Store) :
    (strTruthy req.prompt = false →
      (optimizeHandler env tok req st).1 = .badRequest ∧
      (optimizeHandler env tok req st).2 = st) ∧
    (strTruthy req.prompt = true →
      (optimizeHandler env tok req st).2.users = st.users ∧
      (optimizeHandler env tok req st).2.opts =
        st.opts ++ [newRecord env tok req st] ∧
      (newRecord env tok req st).id = st.opts.length + 1 ∧
      (optimizeHandler env tok req st).1 =
        .ok (newRecord env tok req st).id (newRecord env tok req st).user_id
          (newRecord env tok req st).tokens_before
          (newRecord env tok req st).tokens_after
          (newRecord env tok req st).tokens_saved
          ((newRecord env tok req st).tokens_saved * kwhPerToken)
          (newRecord env tok req st).co2_saved_kg) ∧
    (req.tokens_before = none →
      (newRecord env tok req st).tokens_before =
        (estimateTokens (req.prompt.getD "") : ℚ)) ∧
    (∀ s, req.tokens_after = none → req.optimized_prompt = some s → s ≠ "" →
      (newRecord env tok req st).tokens_after = (estimateTokens s : ℚ)) ∧
    (∀ n, req.tokens_before = some n →
      (newRecord env tok req st).tokens_before = n) ∧
    (∀ n, req.tokens_after = some n →
      (newRecord env tok req st).tokens_after = n) := by
  refine ⟨?_, ?_, ?_, ?_, ?_, ?_⟩
  · intro h
    simp [optimizeHandler, h]
  · intro h
    simp [optimizeHandler, h]
    exact ⟨rfl, rfl⟩
  · intro h
    simp [newRecord, reqTb, h]
  · intro s hta hop hs
    simp [newRecord, reqTa, hta, hop, strTruthy, hs]
  · intro n h
    simp [newRecord, reqTb, h]
  · intro n h
    simp [newRecord, reqTa, h]

/-- Concrete instantiation of `optimizeHandler_endpoint_spec`: a request with
prompt `"ab"` and no other fields appends exactly one record, while the empty
prompt is rejected without a write. -/
theorem optimizeHandler_endpoint_spec_witness :
    strTruthy (some "ab") = true ∧ strTruthy (some "") = false ∧
    (optimizeHandler none .absent ⟨some "ab", none, none, none⟩ ⟨[], []⟩).2.opts =
      [] ++ [newRecord none .absent ⟨some "ab", none, none, none⟩ ⟨[], []⟩] ∧
    (optimizeHandler none .absent ⟨some "", none, none, none⟩ ⟨[], []⟩).1 =
      .badRequest := by
  refine ⟨by decide, by decide, ?_, ?_⟩
  · exact ((optimizeHandler_endpoint_spec none .absent
      ⟨some "ab", none, none, none⟩ ⟨[], []⟩).2.1 (by decide)).2.1
  · exact ((optimizeHandler_endpoint_spec none .absent
      ⟨some "", none, none, none⟩ ⟨[], []⟩).1 (by decide)).1

/-! ## Helper lemmas for the defaulted `tokens_after` branch -/

/-- `Math.floor(m * 0.2)` for a natural number `m` is `m / 5` (natural
division). -/
theorem floor_point_two (m : ℕ) :
    Int.floor ((m : ℚ) * (2 / 10)) = ((m / 5 : ℕ) : ℤ) := by
  have h1 : ((m : ℚ) * (2 / 10)) = ((2 * m : ℤ) : ℚ) / ((10 : ℕ) : ℚ) := by
    push_cast
    ring
  rw [h1, Rat.floor_intCast_div_natCast]
  omega

/-- When `tokens_after` is absent, `optimized_prompt` is JS-falsy and the
effective `tokens_before` is the natural number `m`, the handler fabricates
`tokens_after = m - m / 5`. -/
theorem reqTa_fabricated (req : OptimizeReq) (m : ℕ)
    (hta : req.tokens_after = none)
    (hop : strTruthy req.optimized_prompt = false)
    (htb : reqTb req = (m : ℚ)) :
    reqTa req = (m : ℚ) - ((m / 5 : ℕ) : ℚ) := by
  have hfl : ((Int.floor ((m : ℚ) * (2 / 10)) : ℤ) : ℚ) = ((m / 5 : ℕ) : ℚ) := by
    rw [floor_point_two]
    norm_cast
  have h5 : ((m / 5 : ℕ) : ℚ) ≤ (m : ℚ) :=
    Nat.cast_le.mpr (Nat.div_le_self m 5)
  have h0 : (0 : ℚ) ≤ ((m / 5 : ℕ) : ℚ) := Nat.cast_nonneg _
  simp only [reqTa, hta, hop, Bool.false_eq_true, if_false, htb, hfl]
  rw [max_eq_right h0, max_eq_right (by linarith)]

/-! ## Claim C3: the stored-record invariant (corrected) -/

/-- Counterexample to claim C3 as stated: a client may supply a negative
`tokens_before`, and the handler stores it verbatim, so the stored record's
`tokens_before` is not a non-negative integer. -/
theorem optimize_record_nonneg_cex :
    ((optimizeHandler none .absent ⟨some "hello", none, some (-5), some 0⟩
        ⟨[], []⟩).2.opts.map (fun r => r.tokens_before)) = [(-5 : ℚ)] ∧
    ¬ (0 : ℚ) ≤ -5 := by
  constructor
  · simp [optimizeHandler, newRecord, reqTb, strTruthy]
  · norm_num

/-- Claim C3 amended: every record the optimize endpoint writes satisfies
`tokens_saved = max 0 (tokens_before - tokens_after)` and
`co2_saved_kg = tokens_saved * kwh_per_token * grid_intensity`; the store is
append-only (existing records are never altered, so records are immutable
after creation); and `tokens_before`/`tokens_after` are non-negative integers
whenever the server derives them itself — but client-supplied numeric values
are stored verbatim and need not be non-negative integers. -/
theorem optimize_record_invariant (env : Option ℚ) (tok : TokRes)
    (req : OptimizeReq) (st : Store) :
    ((optimizeHandler env tok req st).2.opts = st.opts ∨
     (optimizeHandler env tok req st).2.opts =
       st.opts ++ [newRecord env tok req st]) ∧
    (newRecord env tok req st).tokens_saved =
      max 0 ((newRecord env tok req st).tokens_before -
        (newRecord env tok req st).tokens_after) ∧
    (newRecord env tok req st).co2_saved_kg =
      (newRecord env tok req st).tokens_saved * kwhPerToken * gridIntensity env ∧
    (req.tokens_before = none →
      ∃ n : ℕ, (newRecord env tok req st).tokens_before = (n : ℚ)) ∧
    (req.tokens_before = none → req.tokens_after = none →
      ∃ n : ℕ, (newRecord env tok req st).tokens_after = (n : ℚ)) := by
  refine ⟨?_, rfl, rfl, ?_, ?_⟩
  · by_cases h : strTruthy req.prompt
    · right
      simp [optimizeHandler, h]
    · left
      simp [optimizeHandler, h]
  · intro h
    exact ⟨estimateTokens (req.prompt.getD ""), by simp [newRecord, reqTb, h]⟩
  · intro hb ha
    by_cases hop : strTruthy req.optimized_prompt
    · exact ⟨estimateTokens (req.optimized_prompt.getD ""),
        by simp [newRecord, reqTa, ha, hop]⟩
    · set m := estimateTokens (req.prompt.getD "") with hm
      refine ⟨m - m / 5, ?_⟩
      have htb : reqTb req = (m : ℚ) := by simp [reqTb, hb, hm]
      show reqTa req = ((m - m / 5 : ℕ) : ℚ)
      rw [reqTa_fabricated req m ha (by simp [hop]) htb,
        Nat.cast_sub (Nat.div_le_self m 5)]

/-- Concrete instantiation of `optimize_record_invariant`: with every
optional field absent, the derived-field invariant holds and the stored
`tokens_before` is a natural number. -/
theorem optimize_record_invariant_witness :
    (OptimizeReq.mk (some "hello") none none none).tokens_before = none ∧
    (∃ n : ℕ, (newRecord none .absent ⟨some "hello", none, none, none⟩
        ⟨[], []⟩).tokens_before = (n : ℚ)) ∧
    (∃ n : ℕ, (newRecord none .absent ⟨some "hello", none, none, none⟩
        ⟨[], []⟩).tokens_after = (n : ℚ)) :=
  ⟨rfl,
   (optimize_record_invariant none .absent ⟨some "hello", none, none, none⟩
      ⟨[], []⟩).2.2.2.1 rfl,
   (optimize_record_invariant none .absent ⟨some "hello", none, none, none⟩
      ⟨[], []⟩).2.2.2.2 rfl rfl⟩

/-! ## Claim C9: fabricated savings when no optimization is supplied -/

/-- General form of the fabricated `tokens_after`: when `tokens_after` is
absent, `optimized_prompt` is JS-falsy and the effective `tokens_before` is
non-negative, both `Math.max(0, ...)` clamps are no-ops. -/
theorem reqTa_fabricated_rat (req : OptimizeReq)
    (hta : req.tokens_after = none)
    (hop : strTruthy req.optimized_prompt = false)
    (htb0 : 0 ≤ reqTb req) :
    reqTa req = reqTb req - ((Int.floor (reqTb req * (2 / 10)) : ℤ) : ℚ) := by
  have h1 : (0 : ℤ) ≤ Int.floor (reqTb req * (2 / 10)) :=
    Int.floor_nonneg.mpr (mul_nonneg htb0 (by norm_num))
  have h2 : ((Int.floor (reqTb req * (2 / 10)) : ℤ) : ℚ) ≤ reqTb req :=
    le_trans (Int.floor_le _) (mul_le_of_le_one_right htb0 (by norm_num))
  have h1' : (0 : ℚ) ≤ ((Int.floor (reqTb req * (2 / 10)) : ℤ) : ℚ) := by
    exact_mod_cast h1
  simp only [reqTa, hta, hop, Bool.false_eq_true, if_false]
  rw [max_eq_right h1', max_eq_right (by linarith)]

/-- Claim C9: a request that supplies a (truthy) prompt but neither
`tokens_after` nor a truthy `optimized_prompt` gets
`tokens_after = tokens_before - floor(0.2 * tokens_before)`, so the stored
record reports `tokens_saved = floor(0.2 * tokens_before)` — strictly
positive whenever `tokens_before ≥ 5` — even though no optimized prompt was
produced (the stored `optimized_prompt` is the empty string). -/
theorem fabricated_savings (env : Option ℚ) (tok : TokRes) (st : Store)
    (req : OptimizeReq)
    (hp : strTruthy req.prompt = true)
    (hop : strTruthy req.optimized_prompt = false)
    (hta : req.tokens_after = none)
    (htb0 : 0 ≤ reqTb req) :
    (optimizeHandler env tok req st).2.opts =
      st.opts ++ [newRecord env tok req st] ∧
    (newRecord env tok req st).tokens_after =
      reqTb req - ((Int.floor (reqTb req * (2 / 10)) : ℤ) : ℚ) ∧
    (newRecord env tok req st).tokens_saved =
      ((Int.floor (reqTb req * (2 / 10)) : ℤ) : ℚ) ∧
    (req.tokens_before = none →
      (newRecord env tok req st).tokens_before =
        (estimateTokens (req.prompt.getD "") : ℚ)) ∧
    (newRecord env tok req st).optimized_prompt = req.optimized_prompt.getD "" ∧
    (5 ≤ reqTb req → 0 < (newRecord env tok req st).tokens_saved) := by
  have hta' := reqTa_fabricated_rat req hta hop htb0
  have hf0 : (0 : ℚ) ≤ ((Int.floor (reqTb req * (2 / 10)) : ℤ) : ℚ) := by
    exact_mod_cast Int.floor_nonneg.mpr (mul_nonneg htb0 (by norm_num))
  have hsav : (newRecord env tok req st).tokens_saved =
      ((Int.floor (reqTb req * (2 / 10)) : ℤ) : ℚ) := by
    show max 0 (reqTb req - reqTa req) = _
    rw [hta']
    have : reqTb req - (reqTb req - ((Int.floor (reqTb req * (2 / 10)) : ℤ) : ℚ)) =
        ((Int.floor (reqTb req * (2 / 10)) : ℤ) : ℚ) := by ring
    rw [this, max_eq_right hf0]
  refine ⟨by simp [optimizeHandler, hp], hta', hsav, ?_, rfl, ?_⟩
  · intro h
    simp [newRecord, reqTb, h]
  · intro h5
    rw [hsav]
    have : (1 : ℤ) ≤ Int.floor (reqTb req * (2 / 10)) := by
      rw [Int.le_floor]
      push_cast
      linarith
    exact_mod_cast lt_of_lt_of_le Int.zero_lt_one this

/-- Concrete instantiation of `fabricated_savings`: a 20-character prompt
estimates to 5 tokens, and with no `tokens_after` and no `optimized_prompt`
the stored saving is strictly positive. -/
theorem fabricated_savings_witness :
    strTruthy (some "abcdefghijklmnopqrst") = true ∧
    strTruthy (none : Option String) = false ∧
    (0 : ℚ) ≤ reqTb ⟨some "abcdefghijklmnopqrst", none, none, none⟩ ∧
    (5 : ℚ) ≤ reqTb ⟨some "abcdefghijklmnopqrst", none, none, none⟩ ∧
    0 < (newRecord none .absent ⟨some "abcdefghijklmnopqrst", none, none, none⟩
        ⟨[], []⟩).tokens_saved := by
  refine ⟨by decide, rfl, by decide, by decide, ?_⟩
  exact (fabricated_savings none .absent ⟨[], []⟩
    ⟨some "abcdefghijklmnopqrst", none, none, none⟩
    (by decide) rfl rfl (by decide)).2.2.2.2.2 (by decide)

/-! ## Claim C6: duplicate signup -/

/-- Claim C6: a signup request whose email exactly matches an
already-registered email gets a 409 conflict, and the store is unchanged:
no user row is created and no existing row is altered. -/
theorem signup_duplicate_conflict (hash : String → String)
    (email password : Option String) (st : Store)
    (he : strTruthy email = true) (hp : strTruthy password = true)
    (hdup : ∃ u ∈ st.users, u.email = email.getD "") :
    (signupHandler hash email password st).1.status = 409 ∧
    (signupHandler hash email password st).1.message = some "Email already in use" ∧
    (signupHandler hash email password st).2 = st := by
  have hsome : (st.users.find? (fun u => u.email == email.getD "")).isSome := by
    rw [List.find?_isSome]
    obtain ⟨u, hu, heq⟩ := hdup
    exact ⟨u, hu, by simp [heq]⟩
  obtain ⟨w, hw⟩ := Option.isSome_iff_exists.mp hsome
  simp [signupHandler, he, hp, hw]

/-- Concrete instantiation of `signup_duplicate_conflict`: re-registering
`"a@x.com"` against a store that already holds that email yields a 409. -/
theorem signup_duplicate_conflict_witness :
    strTruthy (some "a@x.com") = true ∧ strTruthy (some "pw") = true ∧
    (∃ u ∈ [User.mk 1 "a@x.com" "h"], u.email = (some "a@x.com").getD "") ∧
    (signupHandler (fun s => s) (some "a@x.com") (some "pw")
        ⟨[⟨1, "a@x.com", "h"⟩], []⟩).1.status = 409 ∧
    (signupHandler (fun s => s) (some "a@x.com") (some "pw")
        ⟨[⟨1, "a@x.com", "h"⟩], []⟩).2 = ⟨[⟨1, "a@x.com", "h"⟩], []⟩ := by
  have h := signup_duplicate_conflict (fun s => s) (some "a@x.com") (some "pw")
    ⟨[⟨1, "a@x.com", "h"⟩], []⟩ (by decide) (by decide)
    ⟨⟨1, "a@x.com", "h"⟩, by simp, rfl⟩
  exact ⟨by decide, by decide, ⟨⟨1, "a@x.com", "h"⟩, by simp, rfl⟩, h.1, h.2.2⟩

/-! ## Claim C7: login does not reveal whether the email exists -/

/-- Claim C7: for a login request with both fields present, an unregistered
email and a registered email with a non-verifying password produce the
identical observable response `⟨401, "Invalid credentials", no user,
no cookie⟩`, so the response does not reveal whether the email exists. -/
theorem login_no_account_leak (verify : String → String → Bool)
    (email password : Option String) (st : Store)
    (he : strTruthy email = true) (hp : strTruthy password = true) :
    (st.users.find? (fun u => u.email == email.getD "") = none →
      loginHandler verify email password st =
        ⟨401, some "Invalid credentials", none, false⟩) ∧
    (∀ row, st.users.find? (fun u => u.email == email.getD "") = some row →
      verify (password.getD "") row.password_hash = false →
      loginHandler verify email password st =
        ⟨401, some "Invalid credentials", none, false⟩) := by
  constructor
  · intro h
    simp [loginHandler, he, hp, h]
  · intro row h hv
    simp [loginHandler, he, hp, h, hv]

/-- Concrete instantiation of `login_no_account_leak`: against a store
holding only `"a@x.com"`, logging in as the unregistered `"b@x.com"` and as
`"a@x.com"` with a wrong password produce the same response. -/
theorem login_no_account_leak_witness :
    ([User.mk 1 "a@x.com" "h"].find? (fun u => u.email == "b@x.com") = none) ∧
    ([User.mk 1 "a@x.com" "h"].find? (fun u => u.email == "a@x.com") =
      some ⟨1, "a@x.com", "h"⟩) ∧
    loginHandler (fun _ _ => false) (some "b@x.com") (some "pw")
      ⟨[⟨1, "a@x.com", "h"⟩], []⟩ = ⟨401, some "Invalid credentials", none, false⟩ ∧
    loginHandler (fun _ _ => false) (some "a@x.com") (some "pw")
      ⟨[⟨1, "a@x.com", "h"⟩], []⟩ = ⟨401, some "Invalid credentials", none, false⟩ := by
  refine ⟨by decide, by decide, ?_, ?_⟩
  · exact (login_no_account_leak (fun _ _ => false) (some "b@x.com") (some "pw")
      ⟨[⟨1, "a@x.com", "h"⟩], []⟩ (by decide) (by decide)).1 (by decide)
  · exact (login_no_account_leak (fun _ _ => false) (some "a@x.com") (some "pw")
      ⟨[⟨1, "a@x.com", "h"⟩], []⟩ (by decide) (by decide)).2
        ⟨1, "a@x.com", "h"⟩ (by decide) rfl

/-! ## Claim C8: token-verification failure is anonymous, never an error -/

/-- Claim C8: every token-verification failure — cookie absent, token
invalid (malformed/expired/bad signature), or a valid token whose user id no
longer exists — yields `null` from `getUserFromToken`; `/api/auth/me` then
answers 200 with a null user, and `/api/optimize` still answers 200 and
stores the record with a null `user_id` rather than failing. -/
theorem token_failure_anonymous (env : Option ℚ) (req : OptimizeReq)
    (st : Store) (tok : TokRes)
    (hfail : getUserFromToken tok st.users = none) :
    getUserFromToken .absent st.users = none ∧
    getUserFromToken .invalid st.users = none ∧
    (∀ i, st.users.find? (fun u => u.id == i) = none →
      getUserFromToken (.valid i) st.users = none) ∧
    meHandler tok st = (200, none) ∧
    (strTruthy req.prompt = true →
      (optimizeHandler env tok req st).1.status = 200 ∧
      (newRecord env tok req st).user_id = none ∧
      (optimizeHandler env tok req st).2.opts =
        st.opts ++ [newRecord env tok req st]) := by
  refine ⟨rfl, rfl, ?_, ?_, ?_⟩
  · intro i h
    simp [getUserFromToken, h]
  · simp [meHandler, hfail]
  · intro hp
    refine ⟨?_, ?_, ?_⟩
    · simp [optimizeHandler, hp, OptimizeResult.status]
    · simp [newRecord, hfail]
    · simp [optimizeHandler, hp]

/-- Concrete instantiation of `token_failure_anonymous` with an invalid
token against a non-empty user table. -/
theorem token_failure_anonymous_witness :
    getUserFromToken .invalid [User.mk 1 "a@x.com" "h"] = none ∧
    meHandler .invalid ⟨[⟨1, "a@x.com", "h"⟩], []⟩ = (200, none) ∧
    (newRecord none .invalid ⟨some "ab", none, none, none⟩
      ⟨[⟨1, "a@x.com", "h"⟩], []⟩).user_id = none ∧
    (optimizeHandler none .invalid ⟨some "ab", none, none, none⟩
      ⟨[⟨1, "a@x.com", "h"⟩], []⟩).1.status = 200 := by
  have h := token_failure_anonymous none ⟨some "ab", none, none, none⟩
    ⟨[⟨1, "a@x.com", "h"⟩], []⟩ .invalid rfl
  exact ⟨rfl, h.2.2.2.1, (h.2.2.2.2 (by decide)).2.1, (h.2.2.2.2 (by decide)).1⟩

/-! ## Claim C10: the grid-intensity fallback (corrected) -/

/-- Counterexample to claim C10 as stated: a configured negative value (for
example `GRID_KGCO2_PER_KWH=-1`) is truthy, so it does not fall back to
0.45; the effective grid intensity is `-1 ≠ 0`, yet the stats guard
`GRID > 0` fails, so the guard branch that returns `energy_saved_kwh = 0`
IS reachable (here with a nonzero CO₂ sum). -/
theorem grid_guard_reachable_cex :
    gridIntensity (some (-1)) ≠ 0 ∧
    ¬ 0 < gridIntensity (some (-1)) ∧
    (statsHandler (some (-1))
      ⟨[], [⟨1, none, "p", "", 4, 0, 4, 1⟩]⟩).1.energy_saved_kwh = 0 ∧
    sumCo2 [⟨1, none, "p", "", 4, 0, 4, 1⟩] ≠ 0 := by
  refine ⟨by norm_num [gridIntensity], by norm_num [gridIntensity], ?_,
    by norm_num [sumCo2]⟩
  norm_num [statsHandler, gridIntensity]

/-- Claim C10 amended: `parseFloat(env) || 0.45` falls back to 0.45 on a
missing/non-numeric value and on a configured 0, so the effective grid
intensity is never 0; the divide-by-zero guard branch of the stats handler
is unreachable for every non-negative configuration (only a configured
negative value can reach it), and whenever the effective grid intensity is
positive the division branch is taken. -/
theorem gridIntensity_never_zero (e : Option ℚ) (q : ℚ) :
    gridIntensity none = 45 / 100 ∧
    gridIntensity (some 0) = 45 / 100 ∧
    gridIntensity e ≠ 0 ∧
    (0 ≤ q → 0 < gridIntensity (some q)) ∧
    (∀ st : Store, 0 < gridIntensity e →
      (statsHandler e st).1.energy_saved_kwh = sumCo2 st.opts / gridIntensity e) := by
  refine ⟨rfl, by norm_num [gridIntensity], ?_, ?_, ?_⟩
  · match e with
    | none => norm_num [gridIntensity]
    | some r =>
      by_cases hr : r = 0
      · simp [gridIntensity, hr]
      · simp [gridIntensity, hr]
  · intro hq
    by_cases hq0 : q = 0
    · simp [gridIntensity, hq0]
    · simp only [gridIntensity, hq0, if_false]
      exact lt_of_le_of_ne hq (Ne.symm hq0)
  · intro st h
    show (if gridIntensity e > 0 then sumCo2 st.opts / gridIntensity e else 0) =
      sumCo2 st.opts / gridIntensity e
    rw [if_pos h]

/-- Concrete instantiation of `gridIntensity_never_zero` at the configured
value 2 and the empty store. -/
theorem gridIntensity_never_zero_witness :
    (0 : ℚ) ≤ 2 ∧ 0 < gridIntensity (some 2) ∧ gridIntensity (some 2) ≠ 0 ∧
    (statsHandler (some 2) ⟨[], []⟩).1.energy_saved_kwh =
      sumCo2 ([] : List OptRecord) / gridIntensity (some 2) := by
  have h := gridIntensity_never_zero (some 2) 2
  exact ⟨by norm_num, h.2.2.2.1 (by norm_num), h.2.2.1,
    h.2.2.2.2 ⟨[], []⟩ (h.2.2.2.1 (by norm_num))⟩

end PennApps
